import Mathlib

/-!
Verification of `src/Tonuino/soundfiles.hpp` (TonUINO).

The header defines two widening identity conversions
(`getAdvertNumber`, `getMp3Number`, both `uint8_t -> uint16_t`) and two
C enumerations (`Advertisements`, `Mp3s`) of sound-file indices.

Machine integers are modelled as `Nat`:
a `uint8_t` value is a natural number `< 256`; the `uint16_t` return is
modelled by an explicit `% 65536` (the implicit C++ conversion).
The enumerations are modelled twice, both directly from the source:
as named `Nat` constants (auto-increment written explicitly as `+ 1`,
which is what the C++ enumerator-without-initializer rule does), and as
name-to-value association lists recording exactly which enumerator
names the source declares.
-/

-- uint16_t getAdvertNumber(uint8_t numberToSay){ return numberToSay; }
def getAdvertNumber (numberToSay : Nat) : Nat :=
  numberToSay % 65536

-- uint16_t getMp3Number(uint8_t numberToSay){ return numberToSay; }
def getMp3Number (numberToSay : Nat) : Nat :=
  numberToSay % 65536

namespace Advertisements

def NOTIFIER_DING : Nat := 260

def NOTIFIER_DONG : Nat := 261

def FREEZE_INTRO : Nat := 300

-- the next three enumerators carry no initializer: previous value + 1
def FREEZE_STOPP : Nat := FREEZE_INTRO + 1

def FREEZE_DONT_MOVE : Nat := FREEZE_STOPP + 1

-- sic: the source spells this enumerator CONITNUE, not CONTINUE
def FREEZE_CONITNUE : Nat := FREEZE_DONT_MOVE + 1

end Advertisements

namespace Mp3s

def OH_A_NEW_CARD : Nat := 300

def OK : Nat := 400

def THAT_DIDNT_WORK : Nat := 401

end Mp3s

/-- The enumerator names and values of `enum Advertisements`, in source
order, spelled exactly as the source spells them. -/
def advertisementsEnum : List (String × Nat) :=
  [("NOTIFIER_DING", Advertisements.NOTIFIER_DING),
   ("NOTIFIER_DONG", Advertisements.NOTIFIER_DONG),
   ("FREEZE_INTRO", Advertisements.FREEZE_INTRO),
   ("FREEZE_STOPP", Advertisements.FREEZE_STOPP),
   ("FREEZE_DONT_MOVE", Advertisements.FREEZE_DONT_MOVE),
   ("FREEZE_CONITNUE", Advertisements.FREEZE_CONITNUE)]

/-- The enumerator names and values of `enum Mp3s`, in source order. -/
def mp3sEnum : List (String × Nat) :=
  [("OH_A_NEW_CARD", Mp3s.OH_A_NEW_CARD),
   ("OK", Mp3s.OK),
   ("THAT_DIDNT_WORK", Mp3s.THAT_DIDNT_WORK)]

/-- State-passing embedding of `getAdvertNumber`: the body reads no
global and writes no global, so over any ambient state it returns the
pure result and the state unchanged. -/
def getAdvertNumberSt (σ : Type) (s : σ) (numberToSay : Nat) : Nat × σ :=
  (numberToSay % 65536, s)

/-- State-passing embedding of `getMp3Number`. -/
def getMp3NumberSt (σ : Type) (s : σ) (numberToSay : Nat) : Nat × σ :=
  (numberToSay % 65536, s)

/-- C1: for every announcement number n in [1,255], both conversions are
the identity: `getAdvertNumber n = n` and `getMp3Number n = n`. -/
theorem C1_identity_on_range (n : Nat) (h1 : 1 ≤ n) (h2 : n ≤ 255) :
    getAdvertNumber n = n ∧ getMp3Number n = n := by
  constructor <;> simp [getAdvertNumber, getMp3Number] <;> omega

theorem C1_identity_on_range_witness :
    1 ≤ 42 ∧ 42 ≤ 255 ∧ (getAdvertNumber 42 = 42 ∧ getMp3Number 42 = 42) :=
  ⟨by decide, by decide, C1_identity_on_range 42 (by decide) (by decide)⟩

/-- C2 (evaluation at the failing input): the `Advertisements`
enumeration has no enumerator named FREEZE_CONTINUE; the source spells
the 303-valued enumerator FREEZE_CONITNUE. All six values are as
claimed. -/
theorem C2_advert_enum_names_and_values :
    (advertisementsEnum.lookup "FREEZE_CONTINUE" = none) ∧
    (advertisementsEnum.lookup "FREEZE_CONITNUE" = some 303) ∧
    advertisementsEnum =
      [("NOTIFIER_DING", 260), ("NOTIFIER_DONG", 261),
       ("FREEZE_INTRO", 300), ("FREEZE_STOPP", 301),
       ("FREEZE_DONT_MOVE", 302), ("FREEZE_CONITNUE", 303)] := by
  refine ⟨by decide, by decide, ?_⟩
  rfl

/-- C3: the `Mp3s` enumeration defines exactly OH_A_NEW_CARD = 300,
OK = 400 and THAT_DIDNT_WORK = 401. -/
theorem C3_mp3_enum_names_and_values :
    mp3sEnum =
      [("OH_A_NEW_CARD", 300), ("OK", 400), ("THAT_DIDNT_WORK", 401)] :=
  rfl

/-- C4: within `Advertisements` all enumerator values are pairwise
distinct, and likewise within `Mp3s`. -/
theorem C4_values_pairwise_distinct :
    (advertisementsEnum.map Prod.snd).Nodup ∧
    (mp3sEnum.map Prod.snd).Nodup := by
  decide

/-- C5: the three freeze-dance enumerators following FREEZE_INTRO are
consecutively auto-incremented from it: FREEZE_STOPP = FREEZE_INTRO + 1,
FREEZE_DONT_MOVE = FREEZE_INTRO + 2, and the last freeze enumerator
(spelled FREEZE_CONITNUE in the source) = FREEZE_INTRO + 3. -/
theorem C5_freeze_auto_increment :
    Advertisements.FREEZE_STOPP = Advertisements.FREEZE_INTRO + 1 ∧
    Advertisements.FREEZE_DONT_MOVE = Advertisements.FREEZE_INTRO + 2 ∧
    Advertisements.FREEZE_CONITNUE = Advertisements.FREEZE_INTRO + 3 := by
  decide

/-- C6: FREEZE_INTRO in the advert namespace and OH_A_NEW_CARD in the
mp3 namespace have the same value 300; the collision is across two
independent enumerations (distinct association lists), so it is
non-conflicting. -/
theorem C6_cross_namespace_collision :
    Advertisements.FREEZE_INTRO = Mp3s.OH_A_NEW_CARD ∧
    Advertisements.FREEZE_INTRO = 300 ∧
    advertisementsEnum.lookup "FREEZE_INTRO" = some 300 ∧
    mp3sEnum.lookup "OH_A_NEW_CARD" = some 300 := by
  decide

/-- C7: determinism and state independence of both conversions: over any
ambient state, the result does not depend on the state and the state is
returned unmodified, and the result agrees with the pure function. -/
theorem C7_pure_deterministic (σ : Type) (s₁ s₂ : σ) (n : Nat) :
    (getAdvertNumberSt σ s₁ n).1 = (getAdvertNumberSt σ s₂ n).1 ∧
    (getMp3NumberSt σ s₁ n).1 = (getMp3NumberSt σ s₂ n).1 ∧
    (getAdvertNumberSt σ s₁ n).2 = s₁ ∧
    (getMp3NumberSt σ s₁ n).2 = s₁ ∧
    (getAdvertNumberSt σ s₁ n).1 = getAdvertNumber n ∧
    (getMp3NumberSt σ s₁ n).1 = getMp3Number n := by
  exact ⟨rfl, rfl, rfl, rfl, rfl, rfl⟩

/-- C8: at the boundary input 0 both conversions still return 0, and the
identity holds over the whole one-byte domain [0,255]. -/
theorem C8_total_on_byte_domain :
    getAdvertNumber 0 = 0 ∧ getMp3Number 0 = 0 ∧
    ∀ n : Nat, n ≤ 255 → getAdvertNumber n = n ∧ getMp3Number n = n := by
  refine ⟨rfl, rfl, fun n h => ?_⟩
  constructor <;> simp [getAdvertNumber, getMp3Number] <;> omega

/-- C9: for every one-byte input the 16-bit results are at most 255, so
a converted announcement number never collides with any enumerator value
of `Advertisements` or `Mp3s` (all of which are at least 260). -/
theorem C9_no_overlap_with_enums (n : Nat) (h : n ≤ 255) :
    getAdvertNumber n ≤ 255 ∧ getMp3Number n ≤ 255 ∧
    ∀ v ∈ (advertisementsEnum.map Prod.snd ++ mp3sEnum.map Prod.snd),
      getAdvertNumber n ≠ v ∧ getMp3Number n ≠ v := by
  have ha : getAdvertNumber n = n := by
    simp [getAdvertNumber]; omega
  have hm : getMp3Number n = n := by
    simp [getMp3Number]; omega
  refine ⟨by omega, by omega, fun v hv => ?_⟩
  have h260 : 260 ≤ v := by
    simp [advertisementsEnum, mp3sEnum] at hv
    rcases hv with hv | hv | hv | hv | hv | hv | hv | hv | hv <;>
      simp [hv, Advertisements.NOTIFIER_DING, Advertisements.NOTIFIER_DONG,
        Advertisements.FREEZE_INTRO, Advertisements.FREEZE_STOPP,
        Advertisements.FREEZE_DONT_MOVE, Advertisements.FREEZE_CONITNUE,
        Mp3s.OH_A_NEW_CARD, Mp3s.OK, Mp3s.THAT_DIDNT_WORK]
  omega

theorem C9_no_overlap_with_enums_witness :
    7 ≤ 255 ∧
    (getAdvertNumber 7 ≤ 255 ∧ getMp3Number 7 ≤ 255 ∧
     ∀ v ∈ (advertisementsEnum.map Prod.snd ++ mp3sEnum.map Prod.snd),
       getAdvertNumber 7 ≠ v ∧ getMp3Number 7 ≠ v) :=
  ⟨by decide, C9_no_overlap_with_enums 7 (by decide)⟩

/-- C10: the two conversions are extensionally equal on the one-byte
domain: for every n ≤ 255, `getAdvertNumber n = getMp3Number n`. -/
theorem C10_conversions_extensionally_equal (n : Nat) (h : n ≤ 255) :
    getAdvertNumber n = getMp3Number n := rfl

theorem C10_conversions_extensionally_equal_witness :
    101 ≤ 255 ∧ getAdvertNumber 101 = getMp3Number 101 :=
  ⟨by decide, C10_conversions_extensionally_equal 101 (by decide)⟩
